import Mathlib

/-!
Shallow embedding of the KrushiMitra backend core: the per-user context store
(`user-context` module), the weather endpoint cache policy, and the email-OTP
issue/verify flow from `server.js`.  JavaScript objects are modelled as Lean
structures whose `Option` fields use `none` for an absent-or-null value;
JS string falsiness (empty string) is handled explicitly where the source
uses `||`.  Timestamps (`new Date()` / `Date.now()`) are passed in as explicit
`Int` parameters.  The Mongo collection is keyed by `userId`, and every
operation touches a single key, so store state is modelled per key as
`Option UserDoc` (the document stored under the caller's key, if any).
-/

namespace KrushiMitra

/-- JS truthiness for a string-valued field: `undefined`/`null`/`""` are falsy. -/
def strTruthy : Option String → Bool
  | some s => s ≠ ""
  | none => false

/-- Evaluation of `x || null` for a string-or-absent value: falsy collapses to null. -/
def strOrNull : Option String → Option String
  | some s => if s = "" then none else some s
  | none => none

/-- Object-spread resolution for one field: a key present in the payload wins,
otherwise the base object's value is kept (`{ ...base, ...profile }`). -/
def spreadField (payloadField baseField : Option String) : Option String :=
  match payloadField with
  | some v => some v
  | none => baseField

/-! ## ObjectId normalization (`normalizeObjectId`) -/

/-- Validity test `ObjectId.isValid` from the mongodb driver: accepts a 12-character string
(12 raw bytes) or a 24-character hex string. -/
def objectIdIsValid (s : String) : Bool :=
  s.length = 12 || (s.length = 24 && s.toList.all (fun c => c.isDigit
    || ('a' ≤ c && c ≤ 'f') || ('A' ≤ c && c ≤ 'F')))

/-- The `userId` argument as received: a nullish value, an `ObjectId`
instance (carrying its hex), a string, or an object carrying an `_id`. -/
inductive IdInput where
  | nullish
  | oid (hex : String)
  | str (s : String)
  | doc (idField : Option String)
deriving Repr, DecidableEq

/-- JS falsiness of the raw `userId` value (`if (!value) return null`). -/
def idFalsy : IdInput → Bool
  | .nullish => true
  | .str s => s = ""
  | _ => false

/-- Function `normalizeObjectId` from the user-context module: nullish values, invalid
strings and objects without a valid `_id` all normalize to `null`. -/
def normalizeObjectId (value : IdInput) : Option String :=
  if idFalsy value then none
  else
    match value with
    | .nullish => none
    | .oid hex => some hex
    | .str s => if objectIdIsValid s then some s else none
    | .doc idField =>
      match idField with
      | some s => if objectIdIsValid s then some s else none
      | none => none

/-! ## Profile sanitization (`sanitizeProfile`) -/

/-- A profile object as supplied by a caller; `none` marks an absent key. -/
structure ProfilePayload where
  name : Option String := none
  email : Option String := none
  phone : Option String := none
  language : Option String := none
deriving Repr, DecidableEq

/-- The stored profile sub-document (every field nullable). -/
structure ProfileRecord where
  name : Option String
  email : Option String
  phone : Option String
  language : Option String
deriving Repr, DecidableEq

/-- Function `sanitizeProfile(profile, fallback)`: builds a base from the fallback with
`|| null` on each field, then spreads the payload over it. -/
def sanitizeProfile (profile fallback : ProfilePayload) : ProfileRecord :=
  { name := spreadField profile.name (strOrNull fallback.name)
    email := spreadField profile.email (strOrNull fallback.email)
    phone := spreadField profile.phone (strOrNull fallback.phone)
    language := spreadField profile.language (strOrNull fallback.language) }

/-- The all-null profile used when a document is created without profile data. -/
def emptyProfileRecord : ProfileRecord :=
  { name := none, email := none, phone := none, language := none }

/-- Test `profile && (profile.name || profile.email || profile.phone || profile.language)`. -/
def hasProfileData (p : ProfilePayload) : Bool :=
  strTruthy p.name || strTruthy p.email || strTruthy p.phone || strTruthy p.language

/-! ## Location and weather sanitization -/

/-- A JS argument that may be omitted (`undefined`), explicitly `null`,
or an object payload. -/
inductive JsArg (α : Type) where
  | undef
  | jsNull
  | obj (payload : α)
deriving Repr, DecidableEq

/-- A location object as supplied by a caller (heterogeneous key aliases). -/
structure LocationPayload where
  address : Option String := none
  lat : Option Int := none
  latitude : Option Int := none
  lon : Option Int := none
  longitude : Option Int := none
  precision : Option String := none
  raw : Option String := none
deriving Repr, DecidableEq

/-- The stored location snapshot. -/
structure LocationRecord where
  address : Option String
  latitude : Option Int
  longitude : Option Int
  precision : Option String
  raw : Option String
  updatedAt : Int
deriving Repr, DecidableEq

/-- Function `sanitizeLocation(location = {})`: an omitted argument defaults to `{}`;
`null` is rejected by the `!location` guard; an all-null result (over
`address`, `latitude`, `longitude`, `raw`) is rejected as empty. -/
def sanitizeLocation (now : Int) (arg : JsArg LocationPayload) : Option LocationRecord :=
  match (match arg with
         | .undef => some ({} : LocationPayload)
         | .jsNull => none
         | .obj p => some p) with
  | none => none
  | some location =>
    let sanitized : LocationRecord :=
      { address := strOrNull location.address
        latitude := match location.lat with
          | some v => some v
          | none => location.latitude
        longitude := match location.lon with
          | some v => some v
          | none => location.longitude
        precision := strOrNull location.precision
        raw := strOrNull location.raw
        updatedAt := now }
    if sanitized.address = none ∧ sanitized.latitude = none ∧
        sanitized.longitude = none ∧ sanitized.raw = none then
      none
    else
      some sanitized

/-- A weather object as supplied by a caller (heterogeneous key aliases). -/
structure WeatherPayload where
  temperature : Option Int := none
  temp : Option Int := none
  humidity : Option Int := none
  condition : Option String := none
  summary : Option String := none
  windSpeed : Option Int := none
  wind : Option Int := none
  precipitationProbability : Option Int := none
  precipChance : Option Int := none
  source : Option String := none
deriving Repr, DecidableEq

/-- The stored weather snapshot.  `source` is kept `Option`-typed because the
source's emptiness check inspects it together with the other fields, even
though `weather.source || 'app'` can never produce null. -/
structure WeatherRecord where
  temperature : Option Int
  humidity : Option Int
  condition : Option String
  windSpeed : Option Int
  precipitationProbability : Option Int
  source : Option String
  updatedAt : Int
deriving Repr, DecidableEq

/-- Function `sanitizeWeather(weather = {})`: nullish-coalescing field aliases, `||` for
the string fields, `source` defaulting to `"app"`, and a `meaningful` check
over every field except `updatedAt` (including `source`). -/
def sanitizeWeather (now : Int) (arg : JsArg WeatherPayload) : Option WeatherRecord :=
  match (match arg with
         | .undef => some ({} : WeatherPayload)
         | .jsNull => none
         | .obj p => some p) with
  | none => none
  | some weather =>
    let sanitized : WeatherRecord :=
      { temperature := match weather.temperature with
          | some v => some v
          | none => weather.temp
        humidity := weather.humidity
        condition := match strOrNull weather.condition with
          | some v => some v
          | none => strOrNull weather.summary
        windSpeed := match weather.windSpeed with
          | some v => some v
          | none => weather.wind
        precipitationProbability := match weather.precipitationProbability with
          | some v => some v
          | none => weather.precipChance
        source := some ((strOrNull weather.source).getD "app")
        updatedAt := now }
    let meaningful := sanitized.temperature.isSome || sanitized.humidity.isSome ||
      sanitized.condition.isSome || sanitized.windSpeed.isSome ||
      sanitized.precipitationProbability.isSome || sanitized.source.isSome
    if meaningful then some sanitized else none

/-! ## Chat entries -/

/-- A chat entry as supplied by a caller; the optional nested `profile` is only
consulted when the document has to be created. -/
structure ChatPayloadEntry where
  role : Option String := none
  message : Option String := none
  metadata : Option String := none
  timestamp : Option Int := none
  profile : ProfilePayload := {}
deriving Repr, DecidableEq

/-- A stored chat entry.  `metadata` is kept opaque; `none` stands for the
`{}` default produced by `entry?.metadata || {}`. -/
structure ChatEntry where
  role : String
  message : String
  metadata : Option String
  timestamp : Int
deriving Repr, DecidableEq

/-- The mapping step of `appendChatMessage`: role normalization, message
stringification with `''` for falsy, and the `|| new Date()` timestamp
(a numeric timestamp of `0` is falsy). -/
def mkChatEntry (now : Int) (e : ChatPayloadEntry) : ChatEntry :=
  { role := if e.role = some "assistant" then "assistant" else "user"
    message := e.message.getD ""
    metadata := strOrNull e.metadata
    timestamp := match e.timestamp with
      | some t => if t = 0 then now else t
      | none => now }

/-- Model of the JS `String.prototype.trim`: strip leading and trailing
whitespace (defined structurally so that it evaluates inside the kernel). -/
def jsTrim (s : String) : String :=
  String.mk (((s.toList.dropWhile Char.isWhitespace).reverse.dropWhile
    Char.isWhitespace).reverse)

/-- The filter step: `entry.message && entry.message.trim().length > 0`. -/
def keepEntry (e : ChatEntry) : Bool :=
  e.message ≠ "" && jsTrim e.message ≠ ""

/-- The `chatEntry` argument: a single entry or an array of entries. -/
inductive ChatArg where
  | single (e : ChatPayloadEntry)
  | arr (es : List ChatPayloadEntry)
deriving Repr, DecidableEq

/-- Evaluation of `Array.isArray(chatEntry) ? chatEntry : [chatEntry]`. -/
def ChatArg.toEntryList : ChatArg → List ChatPayloadEntry
  | .single e => [e]
  | .arr es => es

/-- Evaluation of `Array.isArray(chatEntry) ? chatEntry[0] : chatEntry`. -/
def ChatArg.sampleEntry : ChatArg → Option ChatPayloadEntry
  | .single e => some e
  | .arr es => es.head?

/-- The normalized, filtered entries an `appendChatMessage` call will push. -/
def validEntries (now : Int) (arg : ChatArg) : List ChatEntry :=
  (arg.toEntryList.map (mkChatEntry now)).filter keepEntry

/-- Semantics of the Mongo `$push` with `$slice: -n` update: keep the last `n` elements. -/
def sliceLast (n : Nat) (l : List α) : List α :=
  (l.reverse.take n).reverse

/-! ## The user-context document and its operations -/

/-- One `user_context` document. -/
structure UserDoc where
  userId : String
  profile : ProfileRecord
  location : Option LocationRecord
  weather : Option WeatherRecord
  chats : List ChatEntry
  createdAt : Int
  updatedAt : Int
deriving Repr, DecidableEq

/-- The freshly inserted document shape shared by every creation path. -/
def newUserDoc (now : Int) (nid : String) (p : ProfileRecord) : UserDoc :=
  { userId := nid, profile := p, location := none, weather := none,
    chats := [], createdAt := now, updatedAt := now }

/-- Function `ensureUserContext(userId, profile = {})` (findOne-then-update variant):
invalid ids return `null` without touching the store; an existing document
gets `$set { profile, updatedAt }`; a missing one is inserted via
`$setOnInsert` with empty location/weather/chats.  Returns the new per-key
state together with the function's return value (the normalized id or null). -/
def ensureUserContext (now : Int) (userId : IdInput) (profile : ProfilePayload)
    (doc : Option UserDoc) : Option UserDoc × Option String :=
  match normalizeObjectId userId with
  | none => (doc, none)
  | some nid =>
    let sanitizedProfile := sanitizeProfile profile profile
    match doc with
    | some existing =>
      (some { existing with profile := sanitizedProfile, updatedAt := now }, some nid)
    | none => (some (newUserDoc now nid sanitizedProfile), some nid)

/-- Function `ensureUserContext` (single-upsert `$setOnInsert`/`$set` variant): on an
existing document `$setOnInsert` is ignored and `$set { profile, updatedAt }`
applies; on insert both apply, so the outcome per key coincides. -/
def ensureUserContextV2 (now : Int) (userId : IdInput) (profile : ProfilePayload)
    (doc : Option UserDoc) : Option UserDoc × Option String :=
  match normalizeObjectId userId with
  | none => (doc, none)
  | some nid =>
    let sanitizedProfile := sanitizeProfile profile profile
    match doc with
    | some existing =>
      (some { existing with profile := sanitizedProfile, updatedAt := now }, some nid)
    | none =>
      (some { newUserDoc now nid sanitizedProfile with
                profile := sanitizedProfile, updatedAt := now }, some nid)

/-- The `$set` update built by `updateLocationAndWeather`: always bumps
`updatedAt`, and sets `location`/`weather` only when sanitization returned
a non-null record. -/
def applyLocationWeather (now : Int) (sl : Option LocationRecord)
    (sw : Option WeatherRecord) (d : UserDoc) : UserDoc :=
  let d1 := { d with updatedAt := now }
  let d2 := match sl with
    | some l => { d1 with location := some l }
    | none => d1
  match sw with
  | some w => { d2 with weather := some w }
  | none => d2

/-- Function `updateLocationAndWeather(userId, { profile = {}, location, weather } = {})`:
ensures the document exists (through `ensureUserContext` when the profile has
data, else by inserting a minimal shell), sanitizes location and weather
independently, applies the `$set`, and returns `findOne` of the result. -/
def updateLocationAndWeather (now : Int) (userId : IdInput) (profile : ProfilePayload)
    (location : JsArg LocationPayload) (weather : JsArg WeatherPayload)
    (doc : Option UserDoc) : Option UserDoc × Option UserDoc :=
  match normalizeObjectId userId with
  | none => (doc, none)
  | some nid =>
    let ensured : Option UserDoc :=
      if hasProfileData profile then
        (ensureUserContext now userId profile doc).1
      else
        match doc with
        | some d => some d
        | none => some (newUserDoc now nid emptyProfileRecord)
    let sanitizedLocation := sanitizeLocation now location
    let sanitizedWeather := sanitizeWeather now weather
    let updated := ensured.map (applyLocationWeather now sanitizedLocation sanitizedWeather)
    (updated, updated)

/-- The `{ chats, userId }` projection returned by `appendChatMessage`. -/
structure ChatsProjection where
  userId : String
  chats : List ChatEntry
deriving Repr, DecidableEq

/-- Function `appendChatMessage(userId, chatEntry = {})` (findOne-then-update variant):
invalid ids return `null`; a missing document is created (using the sample
entry's nested profile when it has data); entries are normalized and
filtered; when none survive the call performs no write and returns the
current `{ chats, userId }` projection; otherwise `$push { $each, $slice: -5 }`
appends and truncates to the last five. -/
def appendChatMessage (now : Int) (userId : IdInput) (chatEntry : ChatArg)
    (doc : Option UserDoc) : Option UserDoc × Option ChatsProjection :=
  match normalizeObjectId userId with
  | none => (doc, none)
  | some nid =>
    let ensured : UserDoc :=
      match doc with
      | some d => d
      | none =>
        let profile := (chatEntry.sampleEntry.map (fun e => e.profile)).getD {}
        let p := if hasProfileData profile then sanitizeProfile profile profile
                 else emptyProfileRecord
        newUserDoc now nid p
    let entries := validEntries now chatEntry
    if entries = [] then
      (some ensured, some { userId := ensured.userId, chats := ensured.chats })
    else
      let updated := { ensured with
        chats := sliceLast 5 (ensured.chats ++ entries), updatedAt := now }
      (some updated, some { userId := updated.userId, chats := updated.chats })

/-- Function `fetchUserContext(userId)`. -/
def fetchUserContext (userId : IdInput) (doc : Option UserDoc) : Option UserDoc :=
  match normalizeObjectId userId with
  | none => none
  | some _ => doc

/-- The chat list held by a per-key store state (empty when no document). -/
def chatsOfState : Option UserDoc → List ChatEntry
  | some d => d.chats
  | none => []

/-- One sequence of `appendChatMessage` calls, each with its own clock value,
folded over the per-key store state. -/
def runAppends (uid : IdInput) (calls : List (Int × ChatArg))
    (doc : Option UserDoc) : Option UserDoc :=
  calls.foldl (fun d c => (appendChatMessage c.1 uid c.2 d).1) doc

/-- All non-empty messages a sequence of calls appends, in append order. -/
def joinedMessages (calls : List (Int × ChatArg)) : List ChatEntry :=
  (calls.map (fun c => validEntries c.1 c.2)).flatten

theorem take_append_take (n : Nat) (x y : List α) :
    (x ++ y.take n).take n = (x ++ y).take n := by
  rw [List.take_append_eq_append_take, List.take_append_eq_append_take, List.take_take,
    Nat.min_eq_left (Nat.sub_le n x.length)]

theorem sliceLast_append_sliceLast (n : Nat) (a b : List α) :
    sliceLast n (sliceLast n a ++ b) = sliceLast n (a ++ b) := by
  unfold sliceLast
  rw [List.reverse_append, List.reverse_reverse, take_append_take, List.reverse_append]

theorem length_sliceLast (n : Nat) (l : List α) :
    (sliceLast n l).length = min n l.length := by
  unfold sliceLast
  rw [List.length_reverse, List.length_take, List.length_reverse]

theorem sliceLast_nil (n : Nat) : sliceLast n ([] : List α) = [] := by
  simp [sliceLast]

/-- On an existing document, one `appendChatMessage` call either performs no
write (when every entry is filtered out) or replaces `chats` by the capped
append and bumps `updatedAt`. -/
theorem appendChatMessage_state_existing (now : Int) {uid : IdInput} {nid : String}
    (h : normalizeObjectId uid = some nid) (arg : ChatArg) (d : UserDoc) :
    (appendChatMessage now uid arg (some d)).1 =
      some (if validEntries now arg = [] then d
            else { d with chats := sliceLast 5 (d.chats ++ validEntries now arg),
                          updatedAt := now }) := by
  unfold appendChatMessage
  rw [h]
  by_cases he : validEntries now arg = [] <;> simp [he]

/-- Invariant behind the rolling window: if the current chats are the capped
tail of some message history, each further call keeps them the capped tail of
the extended history. -/
theorem runAppends_invariant {uid : IdInput} {nid : String}
    (h : normalizeObjectId uid = some nid) :
    ∀ (calls : List (Int × ChatArg)) (d : UserDoc) (ms : List ChatEntry),
      d.chats = sliceLast 5 ms →
      ∃ d2, runAppends uid calls (some d) = some d2 ∧
        d2.chats = sliceLast 5 (ms ++ joinedMessages calls) := by
  intro calls
  induction calls with
  | nil =>
    intro d ms hd
    exact ⟨d, rfl, by simpa [joinedMessages] using hd⟩
  | cons c rest ih =>
    intro d ms hd
    have hrw : runAppends uid (c :: rest) (some d) =
        runAppends uid rest ((appendChatMessage c.1 uid c.2 (some d)).1) := rfl
    rw [hrw, appendChatMessage_state_existing c.1 h c.2 d]
    by_cases he : validEntries c.1 c.2 = []
    · rw [if_pos he]
      obtain ⟨d2, h2, hc⟩ := ih d ms hd
      exact ⟨d2, h2, by rw [hc]; simp [joinedMessages, he]⟩
    · rw [if_neg he]
      have hchats : sliceLast 5 (d.chats ++ validEntries c.1 c.2) =
          sliceLast 5 (ms ++ validEntries c.1 c.2) := by
        rw [hd]
        exact sliceLast_append_sliceLast 5 ms (validEntries c.1 c.2)
      obtain ⟨d2, h2, hc⟩ :=
        ih { d with chats := sliceLast 5 (d.chats ++ validEntries c.1 c.2), updatedAt := c.1 }
          (ms ++ validEntries c.1 c.2) hchats
      refine ⟨d2, h2, ?_⟩
      rw [hc, List.append_assoc]
      simp [joinedMessages]

/-- C2: for every user (valid id, document starting with empty chats) and
every sequence of `N ≥ 1` `appendChatMessage` calls totaling `M` non-empty
messages, the stored chats array has length `min M 5` and equals the last 5
(or all, if fewer) appended messages in append order, and `chats.length ≤ 5`
holds after every prefix of the sequence. -/
theorem appendChatMessage_rolling_window {uid : IdInput} {nid : String}
    (h : normalizeObjectId uid = some nid) (d0 : UserDoc) (h0 : d0.chats = [])
    (calls : List (Int × ChatArg)) (_hN : calls ≠ []) :
    ∃ d, runAppends uid calls (some d0) = some d ∧
      d.chats = sliceLast 5 (joinedMessages calls) ∧
      d.chats.length = min (joinedMessages calls).length 5 ∧
      ∀ n : Nat, (chatsOfState (runAppends uid (calls.take n) (some d0))).length ≤ 5 := by
  have hstart : d0.chats = sliceLast 5 [] := by rw [h0, sliceLast_nil]
  obtain ⟨d, hd, hc⟩ := runAppends_invariant h calls d0 [] hstart
  refine ⟨d, hd, by simpa using hc, ?_, ?_⟩
  · rw [hc]
    simp [length_sliceLast, Nat.min_comm]
  · intro n
    obtain ⟨dn, hdn, hcn⟩ := runAppends_invariant h (calls.take n) d0 [] hstart
    rw [hdn]
    simp only [chatsOfState, hcn, length_sliceLast]
    exact Nat.min_le_left _ _

def uidC2 : IdInput := .oid "507f1f77bcf86cd799439011"

def docC2 : UserDoc := newUserDoc 0 "507f1f77bcf86cd799439011" emptyProfileRecord

def callsC2 : List (Int × ChatArg) :=
  [(1, .arr [{ message := some "m1" }, { role := some "assistant", message := some "m2" },
             { message := some "m3" }]),
   (2, .arr [{ message := some "m4" }, { message := some "  " }]),
   (3, .single { message := some "m5" }),
   (4, .arr [{ message := some "m6" }, { role := some "assistant", message := some "m7" }])]

/-- Witness for C2 at a concrete run of four calls and seven non-empty
messages: the final window is the last five messages. -/
theorem appendChatMessage_rolling_window_witness :
    ∃ d, runAppends uidC2 callsC2 (some docC2) = some d ∧
      d.chats = sliceLast 5 (joinedMessages callsC2) ∧
      d.chats.length = min (joinedMessages callsC2).length 5 ∧
      ∀ n : Nat, (chatsOfState (runAppends uidC2 (callsC2.take n) (some docC2))).length ≤ 5 :=
  appendChatMessage_rolling_window (by rfl) docC2 (by rfl) callsC2 (by decide)

/-- C10: an `appendChatMessage` call whose entries all have a trimmed-empty
message is a no-op that still returns the current document projection: the
state (hence `chats` and `updatedAt`) is unchanged and the return value is
the stored `{ userId, chats }`, not an error or null. -/
theorem appendChatMessage_all_empty_noop (now : Int) {uid : IdInput} {nid : String}
    (h : normalizeObjectId uid = some nid) (arg : ChatArg) (d : UserDoc)
    (hempty : ∀ e ∈ arg.toEntryList, jsTrim (e.message.getD "") = "") :
    appendChatMessage now uid arg (some d) =
      (some d, some { userId := d.userId, chats := d.chats }) := by
  have he : validEntries now arg = [] := by
    apply List.filter_eq_nil_iff.mpr
    intro a ha
    obtain ⟨e, hmem, hfe⟩ := List.mem_map.mp ha
    have htrim := hempty e hmem
    subst hfe
    simp [keepEntry, mkChatEntry, htrim]
  unfold appendChatMessage
  rw [h]
  simp [he]

def uidC10 : IdInput := .oid "507f1f77bcf86cd799439011"

def docC10 : UserDoc :=
  { newUserDoc 0 "507f1f77bcf86cd799439011" emptyProfileRecord with
      chats := [{ role := "user", message := "hi", metadata := none, timestamp := 3 }],
      updatedAt := 3 }

/-- Witness for C10: a call carrying one whitespace-only and one absent
message leaves the concrete document (chats and `updatedAt`) untouched and
returns its projection. -/
theorem appendChatMessage_all_empty_noop_witness :
    appendChatMessage 9 uidC10 (.arr [{ message := some "   " }, { message := none }])
        (some docC10) =
      (some docC10, some { userId := docC10.userId, chats := docC10.chats }) :=
  appendChatMessage_all_empty_noop 9 (by rfl)
    (.arr [{ message := some "   " }, { message := none }]) docC10 (by decide)

/-- C8: calling `ensureUserContext` again on an existing document, with any
profile argument, leaves the stored `chats`, `location` and `weather` (and
`createdAt`) unchanged, in both the findOne-then-update variant and the
single-upsert `$setOnInsert` variant. -/
theorem ensureUserContext_frame (now : Int) (uid : IdInput) (p : ProfilePayload)
    (d : UserDoc) :
    (∃ d1, (ensureUserContext now uid p (some d)).1 = some d1 ∧
        d1.chats = d.chats ∧ d1.location = d.location ∧ d1.weather = d.weather ∧
        d1.createdAt = d.createdAt) ∧
    (∃ d2, (ensureUserContextV2 now uid p (some d)).1 = some d2 ∧
        d2.chats = d.chats ∧ d2.location = d.location ∧ d2.weather = d.weather ∧
        d2.createdAt = d.createdAt) := by
  constructor
  · cases hn : normalizeObjectId uid with
    | none => exact ⟨d, by simp [ensureUserContext, hn], rfl, rfl, rfl, rfl⟩
    | some nid =>
      refine ⟨{ d with profile := sanitizeProfile p p, updatedAt := now }, ?_, rfl, rfl, rfl, rfl⟩
      simp [ensureUserContext, hn]
  · cases hn : normalizeObjectId uid with
    | none => exact ⟨d, by simp [ensureUserContextV2, hn], rfl, rfl, rfl, rfl⟩
    | some nid =>
      refine ⟨{ d with profile := sanitizeProfile p p, updatedAt := now }, ?_, rfl, rfl, rfl, rfl⟩
      simp [ensureUserContextV2, hn]

theorem spreadField_strOrNull_self (o : Option String) :
    spreadField o (strOrNull o) = o := by
  cases o with
  | none => rfl
  | some s => rfl

/-- The call pattern `sanitizeProfile(profile, profile)` used by
`ensureUserContext` copies the payload fields verbatim: a field absent from
the payload ends up null in the stored profile. -/
theorem sanitizeProfile_self (p : ProfilePayload) :
    sanitizeProfile p p =
      { name := p.name, email := p.email, phone := p.phone, language := p.language } := by
  simp [sanitizeProfile, spreadField_strOrNull_self]

def uidC5 : IdInput := .oid "507f1f77bcf86cd799439011"

def docC5 : UserDoc :=
  { userId := "507f1f77bcf86cd799439011",
    profile := { name := some "Asha", email := some "asha@example.com",
                 phone := some "+911234567890", language := some "hi" },
    location := none, weather := none, chats := [], createdAt := 0, updatedAt := 0 }

/-- Counterexample for C5: a second `ensureUserContext` call supplying only
`name` resets the previously stored `email` to null instead of retaining it. -/
theorem ensureUserContext_partial_update_fails :
    ∃ d1, (ensureUserContext 5 uidC5 { name := some "Bina" } (some docC5)).1 = some d1 ∧
      d1.profile.name = some "Bina" ∧
      d1.profile.email = none ∧
      docC5.profile.email = some "asha@example.com" := by
  refine ⟨_, rfl, ?_, ?_, ?_⟩ <;> rfl

/-- C5 as amended: a second `ensureUserContext` call on an existing document
replaces the entire profile with the sanitized payload — supplied fields take
their new values and fields absent from the payload are reset to null — while
`chats`, `location`, `weather` and `createdAt` are preserved. -/
theorem ensureUserContext_profile_replace (now : Int) {uid : IdInput} {nid : String}
    (h : normalizeObjectId uid = some nid) (p : ProfilePayload) (d : UserDoc) :
    (ensureUserContext now uid p (some d)).1 =
      some { d with
        profile := { name := p.name, email := p.email, phone := p.phone,
                     language := p.language },
        updatedAt := now } := by
  unfold ensureUserContext
  rw [h]
  simp [sanitizeProfile_self]

/-- Witness for the amended C5 at a concrete document and payload. -/
theorem ensureUserContext_profile_replace_witness :
    (ensureUserContext 5 uidC5 { name := some "Bina" } (some docC5)).1 =
      some { docC5 with
        profile := { name := some "Bina", email := none, phone := none, language := none },
        updatedAt := 5 } :=
  ensureUserContext_profile_replace 5 (by rfl) { name := some "Bina" } docC5

def docC9 : UserDoc := newUserDoc 0 "507f1f77bcf86cd799439011" emptyProfileRecord

/-- Counterexample for C9: with a `userId` that cannot be normalized,
`ensureUserContext` does not surface any validation error — it returns null
(and performs no write), both when a document for some other key exists and
when the store is empty. -/
theorem ensureUserContext_invalid_id_not_error :
    ensureUserContext 0 (IdInput.str "not-an-objectid") {} (some docC9) =
      (some docC9, none) ∧
    ensureUserContext 0 (IdInput.str "not-an-objectid") {} none = (none, none) := by
  exact ⟨rfl, rfl⟩

/-- C9 as amended: when `userId` cannot be normalized to a valid key,
`ensureUserContext` silently returns null and leaves the store untouched
(no error is surfaced to the caller). -/
theorem ensureUserContext_invalid_id_silent (uid : IdInput)
    (h : normalizeObjectId uid = none) (now : Int) (p : ProfilePayload)
    (doc : Option UserDoc) :
    ensureUserContext now uid p doc = (doc, none) := by
  unfold ensureUserContext
  rw [h]

/-- Witness for the amended C9 at a concrete malformed id. -/
theorem ensureUserContext_invalid_id_silent_witness :
    ensureUserContext 7 (IdInput.str "short") { name := some "X" } (some docC9) =
      (some docC9, none) :=
  ensureUserContext_invalid_id_silent (IdInput.str "short") (by rfl) 7
    { name := some "X" } (some docC9)

def uidC1 : IdInput := .oid "507f1f77bcf86cd799439011"

def docC1 : UserDoc :=
  { userId := "507f1f77bcf86cd799439011", profile := emptyProfileRecord,
    location := some { address := some "Shirur", latitude := some 18, longitude := some 74,
                       precision := none, raw := none, updatedAt := 10 },
    weather := some { temperature := some 28, humidity := some 65,
                      condition := some "Partly Cloudy", windSpeed := some 12,
                      precipitationProbability := some 20, source := some "app",
                      updatedAt := 10 },
    chats := [], createdAt := 0, updatedAt := 10 }

/-- C1 evaluated at the failing input: on a user with non-null location and
weather snapshots, `updateLocationAndWeather` with both payloads omitted
leaves the location unchanged (the empty-location payload is rejected as the
spec says) but overwrites the stored weather with an all-null record whose
`source` is `"app"` — because `sanitizeWeather`'s emptiness check counts the
always-non-null `source` default, it never rejects an empty weather payload. -/
theorem updateLocationAndWeather_empty_weather_clobbers :
    ∃ d, (updateLocationAndWeather 20 uidC1 {} .undef .undef (some docC1)).1 = some d ∧
      d.location = docC1.location ∧
      d.weather = some { temperature := none, humidity := none, condition := none,
                         windSpeed := none, precipitationProbability := none,
                         source := some "app", updatedAt := 20 } ∧
      d.weather ≠ docC1.weather := by
  refine ⟨_, rfl, ?_, ?_, ?_⟩ <;> decide

/-! ## The email-OTP flow (`/auth/send-otp`, `/auth/verify-otp` in server.js) -/

/-- One entry of the in-memory `otpStore` map. -/
structure OtpRecord where
  otp : String
  expiresAt : Int
  attempts : Nat
deriving Repr, DecidableEq

/-- Validation `!email || !email.includes('@')` of the send-otp endpoint
(the membership test is on the character list so it evaluates in the kernel). -/
def emailValid : Option String → Bool
  | none => false
  | some e => e ≠ "" && e.toList.contains '@'

/-- The 10-minute OTP lifetime in milliseconds. -/
def OTP_TTL_MS : Int := 10 * 60 * 1000

/-- The OTP generator `Math.floor(100000 + Math.random() * 900000)`, with the
`Math.random()` draw passed in as a rational `r` with `0 ≤ r < 1`. -/
def genOtpNum (r : ℚ) : ℤ := Int.floor ((100000 : ℚ) + r * 900000)

/-- Possible responses of `POST /auth/send-otp`. -/
inductive SendOtpResult where
  | validationError
  | serviceUnavailable
  | serverError
  | success
deriving Repr, DecidableEq

/-- The `POST /auth/send-otp` handler, per email key: validation first, then
the SendGrid configuration check (a 503 before anything is stored), then the
record is written to `otpStore` and the mail is dispatched; a failed send is
caught and answered with a 500, leaving the stored record in place. -/
def sendOtpEndpoint (now : Int) (apiKey sgFrom email : Option String)
    (r : ℚ) (sendOk : Bool) (record : Option OtpRecord) :
    Option OtpRecord × SendOtpResult :=
  if emailValid email = false then (record, .validationError)
  else if strTruthy apiKey = false ∨ strTruthy sgFrom = false then
    (record, .serviceUnavailable)
  else
    let newRecord : OtpRecord :=
      { otp := toString (genOtpNum r), expiresAt := now + OTP_TTL_MS, attempts := 0 }
    if sendOk then (some newRecord, .success) else (some newRecord, .serverError)

/-- Possible responses of `POST /auth/verify-otp` (the post-verification
login/signup branch is collapsed into `verified`). -/
inductive VerifyOtpResult where
  | validationError
  | notFound
  | expired
  | tooManyAttempts
  | invalidOtp (remaining : Nat)
  | verified
deriving Repr, DecidableEq

/-- The `POST /auth/verify-otp` handler, per email key: validation, record
lookup, expiry check (clearing), the `attempts >= 3` check (clearing), and
the code comparison — a mismatch increments `attempts` and reports
`3 - attempts` remaining (computed after the increment); a match clears the
record. -/
def verifyOtpEndpoint (now : Int) (email otp : Option String)
    (record : Option OtpRecord) : Option OtpRecord × VerifyOtpResult :=
  if strTruthy email = false ∨ strTruthy otp = false then (record, .validationError)
  else
    match record with
    | none => (none, .notFound)
    | some r =>
      if now > r.expiresAt then (none, .expired)
      else if r.attempts ≥ 3 then (none, .tooManyAttempts)
      else if some r.otp ≠ otp then
        (some { r with attempts := r.attempts + 1 }, .invalidOtp (3 - (r.attempts + 1)))
      else (none, .verified)

/-- A sequence of verify calls against one email key, collecting the results. -/
def runVerifies (now : Int) (email : Option String) (codes : List (Option String))
    (record : Option OtpRecord) : Option OtpRecord × List VerifyOtpResult :=
  codes.foldl (fun acc c =>
    ((verifyOtpEndpoint now email c acc.1).1,
     acc.2 ++ [(verifyOtpEndpoint now email c acc.1).2])) (record, [])

/-- Counterexample for C4: with a fresh record, three wrong submissions yield
`invalidOtp` every time (the third reporting 0 attempts remaining) — not
`tooManyAttempts` on the third call — and the subsequent submission of the
correct original code yields `tooManyAttempts` (clearing the record), not
`notFound`. -/
theorem verifyOtp_third_wrong_not_exhausted :
    runVerifies 0 (some "a@b.com")
        [some "000000", some "000000", some "000000", some "123456"]
        (some { otp := "123456", expiresAt := 600000, attempts := 0 }) =
      (none, [.invalidOtp 2, .invalidOtp 1, .invalidOtp 0, .tooManyAttempts]) := by
  decide

/-- One wrong-code verification step below the attempt limit. -/
theorem verifyOtp_wrong_step (now exp : Int) (hexp : ¬ now > exp)
    (email : Option String) (he : strTruthy email = true) (code wrong : String)
    (hw : wrong ≠ "") (hne : wrong ≠ code) (a : Nat) (ha : a < 3) :
    verifyOtpEndpoint now email (some wrong)
        (some { otp := code, expiresAt := exp, attempts := a }) =
      (some { otp := code, expiresAt := exp, attempts := a + 1 },
       .invalidOtp (3 - (a + 1))) := by
  unfold verifyOtpEndpoint
  have hot : strTruthy (some wrong) = true := by simp [strTruthy, hw]
  have hcmp : some code ≠ some wrong := by simp [Ne.symm hne]
  simp [he, hot, hexp, Nat.not_le.mpr ha, hcmp]

/-- C4 as amended: for any issued record (attempts 0, not expired), three
wrong submissions yield `invalidOtp` with 2, 1 and 0 attempts remaining; a
fourth call with the correct original code yields `tooManyAttempts` and
clears the record; only a fifth call then yields `notFound`. -/
theorem verifyOtp_attempt_sequence (now exp : Int) (hexp : ¬ now > exp)
    (email : Option String) (he : strTruthy email = true) (code wrong : String)
    (hc : code ≠ "") (hw : wrong ≠ "") (hne : wrong ≠ code) :
    runVerifies now email [some wrong, some wrong, some wrong, some code, some code]
        (some { otp := code, expiresAt := exp, attempts := 0 }) =
      (none, [.invalidOtp 2, .invalidOtp 1, .invalidOtp 0, .tooManyAttempts, .notFound]) := by
  have h1 := verifyOtp_wrong_step now exp hexp email he code wrong hw hne 0 (by omega)
  have h2 := verifyOtp_wrong_step now exp hexp email he code wrong hw hne 1 (by omega)
  have h3 := verifyOtp_wrong_step now exp hexp email he code wrong hw hne 2 (by omega)
  have hoc : strTruthy (some code) = true := by simp [strTruthy, hc]
  have h4 : verifyOtpEndpoint now email (some code)
      (some { otp := code, expiresAt := exp, attempts := 3 }) =
      (none, .tooManyAttempts) := by
    unfold verifyOtpEndpoint
    simp [he, hoc, hexp]
  have h5 : verifyOtpEndpoint now email (some code) none = (none, .notFound) := by
    unfold verifyOtpEndpoint
    simp [he, hoc]
  simp [runVerifies, h1, h2, h3, h4, h5]

/-- Witness for the amended C4 at a concrete record and codes. -/
theorem verifyOtp_attempt_sequence_witness :
    runVerifies 0 (some "farmer@example.com")
        [some "999999", some "999999", some "999999", some "123456", some "123456"]
        (some { otp := "123456", expiresAt := 600000, attempts := 0 }) =
      (none, [.invalidOtp 2, .invalidOtp 1, .invalidOtp 0, .tooManyAttempts, .notFound]) :=
  verifyOtp_attempt_sequence 0 600000 (by decide) (some "farmer@example.com") (by decide)
    "123456" "999999" (by decide) (by decide) (by decide)

/-- Counterexample for C6: no draw of `Math.random()` can produce a code
below 100000, so codes with leading zeros (such as `000000`) are impossible
— not every string of 6 decimal digits is a possible code. -/
theorem genOtp_no_leading_zeros :
    ¬ ∃ r : ℚ, 0 ≤ r ∧ r < 1 ∧ genOtpNum r < 100000 := by
  rintro ⟨r, h0, h1, hlt⟩
  have hge : (100000 : ℤ) ≤ genOtpNum r := by
    apply Int.le_floor.mpr
    push_cast
    nlinarith
  omega

/-- C6 as amended: every issuance draws a code in the range
`[100000, 999999]` (6 digits, no leading zero) and, when the endpoint reaches
the store step, writes `{ otp, expiresAt = now + 10 min, attempts = 0 }` over
whatever record the email previously had. -/
theorem sendOtp_code_range_and_record (now : Int) (r : ℚ) (h0 : 0 ≤ r) (h1 : r < 1)
    (apiKey sgFrom email : Option String) (hk : strTruthy apiKey = true)
    (hf : strTruthy sgFrom = true) (he : emailValid email = true)
    (sendOk : Bool) (prior : Option OtpRecord) :
    100000 ≤ genOtpNum r ∧ genOtpNum r ≤ 999999 ∧
    (sendOtpEndpoint now apiKey sgFrom email r sendOk prior).1 =
      some { otp := toString (genOtpNum r), expiresAt := now + OTP_TTL_MS, attempts := 0 } := by
  refine ⟨?_, ?_, ?_⟩
  · apply Int.le_floor.mpr
    push_cast
    nlinarith
  · have hlt : genOtpNum r < 1000000 := by
      apply Int.floor_lt.mpr
      push_cast
      nlinarith
    omega
  · unfold sendOtpEndpoint
    simp [he, hk, hf]
    cases sendOk <;> simp

/-- Witness for the amended C6 at a concrete draw and configuration. -/
theorem sendOtp_code_range_and_record_witness :
    100000 ≤ genOtpNum (1 / 2) ∧ genOtpNum (1 / 2) ≤ 999999 ∧
    (sendOtpEndpoint 0 (some "SG.key") (some "noreply@km.example")
        (some "farmer@example.com") (1 / 2) true
        (some { otp := "111111", expiresAt := 1, attempts := 2 })).1 =
      some { otp := toString (genOtpNum (1 / 2)), expiresAt := 0 + OTP_TTL_MS,
             attempts := 0 } :=
  sendOtp_code_range_and_record 0 (1 / 2) (by norm_num) (by norm_num)
    (some "SG.key") (some "noreply@km.example") (some "farmer@example.com")
    (by decide) (by decide) (by decide) true
    (some { otp := "111111", expiresAt := 1, attempts := 2 })

/-- Counterexample for C7: with the mail collaborator unconfigured (no API
key), issuance fails with a 503 before the OTP is generated or stored — the
store still has no record afterwards, contradicting that the record is stored
in both failure cases. -/
theorem sendOtp_unconfigured_stores_nothing :
    sendOtpEndpoint 0 none (some "noreply@km.example") (some "farmer@example.com")
        0 true none =
      (none, SendOtpResult.serviceUnavailable) := by
  decide

/-- C7 as amended: when the mail collaborator is unconfigured the endpoint
fails with `serviceUnavailable` and stores nothing (any prior record is left
as it was); only when it is configured and the send call itself fails does
the endpoint fail with `serverError` while the freshly stored record remains
in place. -/
theorem sendOtp_failure_store_policy (now : Int) (apiKey sgFrom email : Option String)
    (r : ℚ) (prior : Option OtpRecord) (he : emailValid email = true) :
    ((strTruthy apiKey = false ∨ strTruthy sgFrom = false) →
      sendOtpEndpoint now apiKey sgFrom email r false prior =
        (prior, .serviceUnavailable)) ∧
    (strTruthy apiKey = true → strTruthy sgFrom = true →
      sendOtpEndpoint now apiKey sgFrom email r false prior =
        (some { otp := toString (genOtpNum r), expiresAt := now + OTP_TTL_MS,
                attempts := 0 },
         .serverError)) := by
  constructor
  · intro hcfg
    unfold sendOtpEndpoint
    simp [he, hcfg]
  · intro hk hf
    unfold sendOtpEndpoint
    simp [he, hk, hf]

/-- Witness for the amended C7: unconfigured issuance leaves a prior record
untouched and stores no new one; configured issuance with a failing send
stores the new record. -/
theorem sendOtp_failure_store_policy_witness :
    ((strTruthy (none : Option String) = false ∨ strTruthy (some "noreply@km.example") = false) →
      sendOtpEndpoint 3 none (some "noreply@km.example") (some "farmer@example.com")
          0 false (some { otp := "222222", expiresAt := 9, attempts := 1 }) =
        (some { otp := "222222", expiresAt := 9, attempts := 1 }, .serviceUnavailable)) ∧
    (strTruthy (none : Option String) = true → strTruthy (some "noreply@km.example") = true →
      sendOtpEndpoint 3 none (some "noreply@km.example") (some "farmer@example.com")
          0 false (some { otp := "222222", expiresAt := 9, attempts := 1 }) =
        (some { otp := toString (genOtpNum 0), expiresAt := 3 + OTP_TTL_MS, attempts := 0 },
         .serverError)) :=
  sendOtp_failure_store_policy 3 none (some "noreply@km.example")
    (some "farmer@example.com") 0 (some { otp := "222222", expiresAt := 9, attempts := 1 })
    (by decide)

/-! ## The weather endpoint (`GET /weather` in server.js)

The response payload's 7-day `forecast` array and the Mongo insert of the
fetched document are elided: neither affects which kind of response (success
with flags, validation error, or configuration error) the caller receives,
which is all the policy below is about.  The upstream values arrive as `Int`,
so the source's `Math.round` calls are identities and are not repeated here. -/

/-- The current-weather fields the endpoint serves. -/
structure WeatherData where
  temperature : Int
  humidity : Int
  windSpeed : Int
  precipitationProbability : Int
  weatherCode : Int
  condition : String
  advisory : String
deriving Repr, DecidableEq

/-- One entry of the in-memory `weatherCache` map. -/
structure WeatherCacheEntry where
  timestamp : Int
  data : WeatherData
deriving Repr, DecidableEq

/-- The 10-minute weather cache TTL in milliseconds. -/
def WEATHER_CACHE_TTL : Int := 10 * 60 * 1000

/-- The numeric values parsed out of an upstream response (after the `|| 0`
defaults, which a caller models by supplying `0`). -/
structure UpstreamValues where
  temperature : Int
  humidity : Int
  windSpeed : Int
  precipitationProbability : Int
  weatherCode : Int
deriving Repr, DecidableEq

/-- Outcome of the `fetch` of the Tomorrow.io URL: a parsed 2xx body, a
non-2xx status (`response.ok` false), or a rejected promise. -/
inductive FetchOutcome where
  | ok (values : UpstreamValues)
  | httpError (status : Int)
  | thrown
deriving Repr, DecidableEq

/-- The `weatherDescriptions` code table (unknown codes map to "Unknown"). -/
def weatherDescription (code : Int) : String :=
  if code = 1000 then "Clear"
  else if code = 1001 then "Cloudy"
  else if code = 1100 then "Mostly Clear"
  else if code = 1101 then "Partly Cloudy"
  else if code = 1102 then "Mostly Cloudy"
  else if code = 2000 then "Fog"
  else if code = 2100 then "Light Fog"
  else if code = 3000 then "Light Wind"
  else if code = 3001 then "Wind"
  else if code = 3002 then "Strong Wind"
  else if code = 4000 then "Drizzle"
  else if code = 4001 then "Rain"
  else if code = 4200 then "Light Rain"
  else if code = 4201 then "Heavy Rain"
  else if code = 5000 then "Snow"
  else if code = 5001 then "Flurries"
  else if code = 5100 then "Light Snow"
  else if code = 5101 then "Heavy Snow"
  else if code = 6000 then "Freezing Drizzle"
  else if code = 6001 then "Freezing Rain"
  else if code = 6200 then "Light Freezing Rain"
  else if code = 6201 then "Heavy Freezing Rain"
  else if code = 7000 then "Ice Pellets"
  else if code = 7101 then "Heavy Ice Pellets"
  else if code = 7102 then "Light Ice Pellets"
  else if code = 8000 then "Thunderstorm"
  else "Unknown"

/-- The advisory ladder (first match wins). -/
def weatherAdvisory (temperature windSpeed precipitationProbability : Int) : String :=
  if precipitationProbability > 70 then
    "High chance of rain. Postpone spraying activities. Good time for indoor planning."
  else if precipitationProbability > 40 then
    "Moderate rain expected. Good time for irrigation planning and soil preparation."
  else if temperature > 35 then
    "High temperature. Ensure adequate irrigation. Avoid midday fieldwork."
  else if temperature < 15 then
    "Cool weather. Monitor frost-sensitive crops. Good for harvesting."
  else if windSpeed > 20 then
    "Windy conditions. Avoid pesticide application. Secure farm equipment."
  else
    "Favorable conditions for farming activities. Plan your fieldwork accordingly."

/-- Assembly of the served payload from freshly fetched values. -/
def parseWeather (v : UpstreamValues) : WeatherData :=
  { temperature := v.temperature, humidity := v.humidity, windSpeed := v.windSpeed,
    precipitationProbability := v.precipitationProbability, weatherCode := v.weatherCode,
    condition := weatherDescription v.weatherCode,
    advisory := weatherAdvisory v.temperature v.windSpeed v.precipitationProbability }

/-- The hard-coded last-resort payload (served with `fallback: true`). -/
def fallbackWeatherData : WeatherData :=
  { temperature := 28, humidity := 65, windSpeed := 10, precipitationProbability := 20,
    weatherCode := 1101, condition := "Partly Cloudy",
    advisory := "Weather data temporarily unavailable. Using estimated conditions." }

/-- What the caller receives: a 400 validation error, the 500
`CONFIG_ERROR`, or a 200 success payload with its `cached`/`stale`/`fallback`
flags. -/
inductive WeatherResponse where
  | validationError
  | configError
  | success (data : WeatherData) (cached stale fallback : Bool)
deriving Repr, DecidableEq

/-- Serve the stale cache entry if one exists, else the hard-coded fallback
(the policy of both the 429 branch and the outer catch). -/
def staleOrFallback : Option WeatherCacheEntry → WeatherResponse
  | some c => .success c.data true true false
  | none => .success fallbackWeatherData false false true

/-- The part of the handler after the fresh-cache fast path: the
missing-API-key branch (stale cache if present, otherwise the 500
`CONFIG_ERROR`), then the upstream fetch — a 429 takes the stale-or-fallback
policy inline, any other failure throws into the outer catch which applies
the same stale-or-fallback policy. -/
def weatherFetchPath (apiKey : Option String) (cached : Option WeatherCacheEntry)
    (fetchResult : FetchOutcome) : WeatherResponse :=
  if strTruthy apiKey = false then
    match cached with
    | some c => .success c.data true true false
    | none => .configError
  else
    match fetchResult with
    | .ok v => .success (parseWeather v) false false false
    | .httpError status =>
      if status = 429 then staleOrFallback cached else staleOrFallback cached
    | .thrown => staleOrFallback cached

/-- The `GET /weather` handler for one coordinate bucket: coordinate
validation, then the fresh-cache fast path, then `weatherFetchPath`. -/
def weatherEndpoint (now : Int) (apiKey lat lon : Option String)
    (cached : Option WeatherCacheEntry) (fetchResult : FetchOutcome) : WeatherResponse :=
  if strTruthy lat = false ∨ strTruthy lon = false then .validationError
  else
    match cached with
    | some c =>
      if now - c.timestamp < WEATHER_CACHE_TTL then .success c.data true false false
      else weatherFetchPath apiKey (some c) fetchResult
    | none => weatherFetchPath apiKey none fetchResult

/-- Counterexample for C3: a request with valid coordinates, no configured
API key and an empty cache bucket is answered with the 500 `CONFIG_ERROR`,
not a fallback payload — the stale-then-fallback policy does not apply to
the unconfigured case when nothing is cached. -/
theorem weatherEndpoint_unconfigured_empty_cache_errors :
    weatherEndpoint 0 none (some "18.52") (some "73.86") none .thrown =
      WeatherResponse.configError := by
  decide

/-- The fetch path never yields a validation error, and yields the config
error exactly on the unconfigured-and-no-cache path. -/
theorem weatherFetchPath_policy (apiKey : Option String)
    (cached : Option WeatherCacheEntry) (fetchResult : FetchOutcome) :
    (strTruthy apiKey = false ∧ cached = none ∧
      weatherFetchPath apiKey cached fetchResult = .configError) ∨
    (∃ d c s f, weatherFetchPath apiKey cached fetchResult = .success d c s f) := by
  cases hk : strTruthy apiKey with
  | false =>
    cases cached with
    | some c =>
      exact Or.inr ⟨c.data, true, true, false, by simp [weatherFetchPath, hk]⟩
    | none =>
      exact Or.inl ⟨rfl, rfl, by simp [weatherFetchPath, hk]⟩
  | true =>
    refine Or.inr ?_
    cases fetchResult with
    | ok v =>
      exact ⟨parseWeather v, false, false, false, by simp [weatherFetchPath, hk]⟩
    | httpError status =>
      cases cached with
      | some c =>
        exact ⟨c.data, true, true, false,
          by simp [weatherFetchPath, hk, staleOrFallback]⟩
      | none =>
        exact ⟨fallbackWeatherData, false, false, true,
          by simp [weatherFetchPath, hk, staleOrFallback]⟩
    | thrown =>
      cases cached with
      | some c =>
        exact ⟨c.data, true, true, false,
          by simp [weatherFetchPath, hk, staleOrFallback]⟩
      | none =>
        exact ⟨fallbackWeatherData, false, false, true,
          by simp [weatherFetchPath, hk, staleOrFallback]⟩

/-- C3 as amended: a request with valid coordinates is always answered with
a success payload (fresh, cached, stale or fallback), except on the single
path where the upstream provider is unconfigured and the coordinate bucket
has no cached value, which is answered with the 500 `CONFIG_ERROR`. -/
theorem weatherEndpoint_valid_coords_policy (now : Int) (apiKey lat lon : Option String)
    (hlat : strTruthy lat = true) (hlon : strTruthy lon = true)
    (cached : Option WeatherCacheEntry) (fetchResult : FetchOutcome) :
    (strTruthy apiKey = false ∧ cached = none ∧
      weatherEndpoint now apiKey lat lon cached fetchResult = .configError) ∨
    (∃ d c s f, weatherEndpoint now apiKey lat lon cached fetchResult = .success d c s f) := by
  cases cached with
  | some c =>
    by_cases hfresh : now - c.timestamp < WEATHER_CACHE_TTL
    · refine Or.inr ⟨c.data, true, false, false, ?_⟩
      simp [weatherEndpoint, hlat, hlon, hfresh]
    · have hrw : weatherEndpoint now apiKey lat lon (some c) fetchResult =
          weatherFetchPath apiKey (some c) fetchResult := by
        simp [weatherEndpoint, hlat, hlon, hfresh]
      rw [hrw]
      exact weatherFetchPath_policy apiKey (some c) fetchResult
  | none =>
    have hrw : weatherEndpoint now apiKey lat lon none fetchResult =
        weatherFetchPath apiKey none fetchResult := by
      simp [weatherEndpoint, hlat, hlon]
    rw [hrw]
    exact weatherFetchPath_policy apiKey none fetchResult

/-- Witness for the amended C3 on a concrete stale-cache request. -/
theorem weatherEndpoint_valid_coords_policy_witness :
    (strTruthy (some "key") = false ∧
        (some { timestamp := 0,
                data := fallbackWeatherData } : Option WeatherCacheEntry) = none ∧
      weatherEndpoint 9000000 (some "key") (some "18.52") (some "73.86")
          (some { timestamp := 0, data := fallbackWeatherData })
          (.httpError 429) = .configError) ∨
    (∃ d c s f, weatherEndpoint 9000000 (some "key") (some "18.52") (some "73.86")
        (some { timestamp := 0, data := fallbackWeatherData })
        (.httpError 429) = .success d c s f) :=
  weatherEndpoint_valid_coords_policy 9000000 (some "key") (some "18.52") (some "73.86")
    (by decide) (by decide) (some { timestamp := 0, data := fallbackWeatherData })
    (.httpError 429)

end KrushiMitra
